import Mathlib

/-!
Shallow embedding of the Adafruit FXAS21002C gyroscope driver
(`Adafruit_FXAS21002C.cpp` / `Adafruit_FXAS21002C.h`, BusIO-based
implementation).

The driver's C++ float arithmetic is modelled over `ℚ` (all per-range
sensitivity constants are exact binary fractions), device registers as a
byte-valued map `Nat → Nat` (reads are masked to 8 bits), and each driver
method as a pure function from driver-plus-device state to new state,
together with the list of bus operations it issues and the values the
environment supplies (register read results, sample bytes, the clock).
-/

/-- Device ID constant `FXAS21002C_ID` (0xD7) from the header. -/
def FXAS21002C_ID : Nat := 0xD7

/-- `GYRO_SENSITIVITY_250DPS` (0.0078125F), Table 35 of the datasheet. -/
def GYRO_SENSITIVITY_250DPS : ℚ := 0.0078125

/-- `GYRO_SENSITIVITY_500DPS` (0.015625F). -/
def GYRO_SENSITIVITY_500DPS : ℚ := 0.015625

/-- `GYRO_SENSITIVITY_1000DPS` (0.03125F). -/
def GYRO_SENSITIVITY_1000DPS : ℚ := 0.03125

/-- `GYRO_SENSITIVITY_2000DPS` (0.0625F). -/
def GYRO_SENSITIVITY_2000DPS : ℚ := 0.0625

/-- Modelled from the spec: the degrees-per-second to radians-per-second
conversion constant `SENSORS_DPS_TO_RADS` lives in the external
`Adafruit_Sensor.h` header (value `0.017453293F`, i.e. π/180 rounded);
it is embedded as the rational reading of that literal. -/
def SENSORS_DPS_TO_RADS : ℚ := 0.017453293

/-- `GYRO_ODR_800HZ`. -/
def GYRO_ODR_800HZ : ℚ := 800

/-- `GYRO_ODR_400HZ`. -/
def GYRO_ODR_400HZ : ℚ := 400

/-- `GYRO_ODR_200HZ`. -/
def GYRO_ODR_200HZ : ℚ := 200

/-- `GYRO_ODR_100HZ`. -/
def GYRO_ODR_100HZ : ℚ := 100

/-- `GYRO_ODR_50HZ`. -/
def GYRO_ODR_50HZ : ℚ := 50

/-- `GYRO_ODR_25HZ`. -/
def GYRO_ODR_25HZ : ℚ := 25

/-- `GYRO_ODR_12_5HZ`. -/
def GYRO_ODR_12_5HZ : ℚ := 12.5

/-- Register address `GYRO_REGISTER_STATUS`. -/
def GYRO_REGISTER_STATUS : Nat := 0x00

/-- Register address `GYRO_REGISTER_WHO_AM_I`. -/
def GYRO_REGISTER_WHO_AM_I : Nat := 0x0C

/-- Register address `GYRO_REGISTER_CTRL_REG0`. -/
def GYRO_REGISTER_CTRL_REG0 : Nat := 0x0D

/-- Register address `GYRO_REGISTER_CTRL_REG1`. -/
def GYRO_REGISTER_CTRL_REG1 : Nat := 0x13

/-- `SENSOR_TYPE_GYROSCOPE` from `Adafruit_Sensor.h`. -/
def SENSOR_TYPE_GYROSCOPE : Nat := 4

/-- The `gyroRange_t` enumeration. -/
inductive gyroRange_t where
  | GYRO_RANGE_250DPS
  | GYRO_RANGE_500DPS
  | GYRO_RANGE_1000DPS
  | GYRO_RANGE_2000DPS
deriving DecidableEq, Repr

/-- Numeric value of each `gyroRange_t` enumerator (the C enum assigns
250, 500, 1000, 2000); used where the C code casts `_range` to a number. -/
def rangeDps : gyroRange_t → Nat
  | .GYRO_RANGE_250DPS => 250
  | .GYRO_RANGE_500DPS => 500
  | .GYRO_RANGE_1000DPS => 1000
  | .GYRO_RANGE_2000DPS => 2000

/-- The `gyroRawData_t` struct: raw signed 16-bit axis values. -/
structure gyroRawData_t where
  x : Int
  y : Int
  z : Int
deriving DecidableEq, Repr

/-- Driver instance state plus the device's register file.  Fields
`_range`, `_ODR`, `_sensorID`, `raw` are the C++ data members; `regs`
is the FXAS21002C register file the bus writes reach. -/
structure Gyro where
  _range : gyroRange_t
  _ODR : ℚ
  _sensorID : Int
  raw : gyroRawData_t
  regs : Nat → Nat

/-- One bus-visible operation issued by the driver, in program order.
`writeBits reg w s v` records an `Adafruit_BusIO_RegisterBits(_, w, s)`
field write of value `v` (a read-modify-write of one byte). -/
inductive BusOp where
  | writeReg (reg val : Nat)
  | writeBits (reg width shift val : Nat)
  | readReg (reg : Nat)
  | readBlock (reg count : Nat)
  | delayMs (ms : Nat)
deriving DecidableEq, Repr

/-- A register read returns one byte (`uint8_t`). -/
def regRead (regs : Nat → Nat) (r : Nat) : Nat := regs r % 256

/-- `Adafruit_BusIO_RegisterBits::write`: mask the data to `w` bits,
clear bits `[s, s+w)` of the old byte, and OR the data in at offset `s`. -/
def bitsWrite (old w s d : Nat) : Nat :=
  (old &&& (255 ^^^ ((2 ^ w - 1) <<< s))) ||| ((d &&& (2 ^ w - 1)) <<< s)

/-- Full-byte register write (`Adafruit_BusIO_Register::write`). -/
def writeRegF (regs : Nat → Nat) (r v : Nat) : Nat → Nat :=
  fun r2 => if r2 = r then v % 256 else regs r2

/-- Register-bits field write: read the byte, splice the field, write back. -/
def writeBitsF (regs : Nat → Nat) (r w s d : Nat) : Nat → Nat :=
  writeRegF regs r (bitsWrite (regRead regs r) w s d)

/-- The two-bit full-scale-range field FS[1:0] of CTRL_REG0. -/
def fsField (regs : Nat → Nat) : Nat := regRead regs GYRO_REGISTER_CTRL_REG0 % 4

/-- The three-bit data-rate field DR[2:0] (bits 4:2) of CTRL_REG1. -/
def drField (regs : Nat → Nat) : Nat := regRead regs GYRO_REGISTER_CTRL_REG1 / 4 % 8

/-- `Adafruit_FXAS21002C::standby(boolean)`: write the two-bit mode field
(`Adafruit_BusIO_RegisterBits(&CTRL_REG1, 2, 0)`) to 0x00 when entering
standby (followed by `delay(100)`), or to 0x03 when going active. -/
def standby (g : Gyro) (s : Bool) : Gyro × List BusOp :=
  if s then
    ({ g with regs := writeBitsF g.regs GYRO_REGISTER_CTRL_REG1 2 0 0x00 },
     [.writeBits GYRO_REGISTER_CTRL_REG1 2 0 0x00, .delayMs 100])
  else
    ({ g with regs := writeBitsF g.regs GYRO_REGISTER_CTRL_REG1 2 0 0x03 },
     [.writeBits GYRO_REGISTER_CTRL_REG1 2 0 0x03])

/-- The FS[1:0] value the `switch (range)` in `setRange` writes:
0b11 for 250 dps, 0b10 for 500 dps, 0b01 for 1000 dps, 0b00 for 2000 dps. -/
def rangeFieldBits : gyroRange_t → Nat
  | .GYRO_RANGE_250DPS => 0b11
  | .GYRO_RANGE_500DPS => 0b10
  | .GYRO_RANGE_1000DPS => 0b01
  | .GYRO_RANGE_2000DPS => 0b00

/-- `Adafruit_FXAS21002C::setRange`: standby(true); write FS[1:0] of
CTRL_REG0 per the switch; standby(false); `_range = range`. -/
def setRange (g : Gyro) (range : gyroRange_t) : Gyro × List BusOp :=
  let (g1, t1) := standby g true
  let g2 : Gyro :=
    { g1 with regs := writeBitsF g1.regs GYRO_REGISTER_CTRL_REG0 2 0 (rangeFieldBits range) }
  let t2 : List BusOp := [.writeBits GYRO_REGISTER_CTRL_REG0 2 0 (rangeFieldBits range)]
  let (g3, t3) := standby g2 false
  ({ g3 with _range := range }, t1 ++ t2 ++ t3)

/-- `Adafruit_FXAS21002C::getRange`: `return _range;`. -/
def getRange (g : Gyro) : gyroRange_t × Gyro × List BusOp := (g._range, g, [])

/-- `Adafruit_FXAS21002C::setODR`: standby(true); write DR[2:0] of
CTRL_REG1 only when `ODR` equals one of the seven valid constants, with
the source's if-else chain; `_ODR = ODR` unconditionally; standby(false). -/
def setODR (g : Gyro) (ODR : ℚ) : Gyro × List BusOp :=
  let (g1, t1) := standby g true
  let (regs2, t2) : (Nat → Nat) × List BusOp :=
    if ODR = GYRO_ODR_800HZ then
      (writeBitsF g1.regs GYRO_REGISTER_CTRL_REG1 3 2 0b000,
       [.writeBits GYRO_REGISTER_CTRL_REG1 3 2 0b000])
    else if ODR = GYRO_ODR_400HZ then
      (writeBitsF g1.regs GYRO_REGISTER_CTRL_REG1 3 2 0b001,
       [.writeBits GYRO_REGISTER_CTRL_REG1 3 2 0b001])
    else if ODR = GYRO_ODR_200HZ then
      (writeBitsF g1.regs GYRO_REGISTER_CTRL_REG1 3 2 0b010,
       [.writeBits GYRO_REGISTER_CTRL_REG1 3 2 0b010])
    else if ODR = GYRO_ODR_100HZ then
      (writeBitsF g1.regs GYRO_REGISTER_CTRL_REG1 3 2 0b011,
       [.writeBits GYRO_REGISTER_CTRL_REG1 3 2 0b011])
    else if ODR = GYRO_ODR_50HZ then
      (writeBitsF g1.regs GYRO_REGISTER_CTRL_REG1 3 2 0b100,
       [.writeBits GYRO_REGISTER_CTRL_REG1 3 2 0b100])
    else if ODR = GYRO_ODR_25HZ then
      (writeBitsF g1.regs GYRO_REGISTER_CTRL_REG1 3 2 0b101,
       [.writeBits GYRO_REGISTER_CTRL_REG1 3 2 0b101])
    else if ODR = GYRO_ODR_12_5HZ then
      (writeBitsF g1.regs GYRO_REGISTER_CTRL_REG1 3 2 0b110,
       [.writeBits GYRO_REGISTER_CTRL_REG1 3 2 0b110])
    else (g1.regs, [])
  let g2 : Gyro := { g1 with regs := regs2, _ODR := ODR }
  let (g3, t3) := standby g2 false
  (g3, t1 ++ t2 ++ t3)

/-- `Adafruit_FXAS21002C::getODR`: `return _ODR;`. -/
def getODR (g : Gyro) : ℚ × Gyro × List BusOp := (g._ODR, g, [])

/-- `Adafruit_FXAS21002C::initialize` (the BusIO version): set `_range`
to 250 dps, clear `raw`, write CTRL_REG1 = 0x00 (standby), CTRL_REG1 =
1<<6 (reset), CTRL_REG0 = 0x03 (±250 dps), set `_ODR` to 100 Hz, write
CTRL_REG1 = 0x0E (active), `delay(100)`, return true.  Named
`initDevice` here. -/
def initDevice (g : Gyro) : Bool × Gyro × List BusOp :=
  let g1 : Gyro := { g with _range := .GYRO_RANGE_250DPS, raw := ⟨0, 0, 0⟩ }
  let regs1 := writeRegF g1.regs GYRO_REGISTER_CTRL_REG1 0x00
  let regs2 := writeRegF regs1 GYRO_REGISTER_CTRL_REG1 (1 <<< 6)
  let regs3 := writeRegF regs2 GYRO_REGISTER_CTRL_REG0 0x03
  let g2 : Gyro := { g1 with _ODR := GYRO_ODR_100HZ, regs := writeRegF regs3 GYRO_REGISTER_CTRL_REG1 0x0E }
  (true, g2,
   [.writeReg GYRO_REGISTER_CTRL_REG1 0x00,
    .writeReg GYRO_REGISTER_CTRL_REG1 (1 <<< 6),
    .writeReg GYRO_REGISTER_CTRL_REG0 0x03,
    .writeReg GYRO_REGISTER_CTRL_REG1 0x0E,
    .delayMs 100])

/-- `Adafruit_FXAS21002C::begin(addr, wire)`: return false if the bus
device fails to start (`busOk`); read WHO_AM_I (the environment supplies
the byte `whoAmI`) and return false on mismatch with `FXAS21002C_ID`;
otherwise run initialization.  The `i2c_dev` allocation itself is not
part of the modelled state. -/
def beginDrv (g : Gyro) (busOk : Bool) (whoAmI : Nat) : Bool × Gyro × List BusOp :=
  if !busOk then (false, g, [])
  else if whoAmI ≠ FXAS21002C_ID then (false, g, [.readReg GYRO_REGISTER_WHO_AM_I])
  else
    let (b, g2, t) := initDevice g
    (b, g2, .readReg GYRO_REGISTER_WHO_AM_I :: t)

/-- The C cast `(int16_t)` of an unsigned expression. -/
def toInt16 (n : Nat) : Int :=
  if n % 65536 < 32768 then (n % 65536 : Int) else (n % 65536 : Int) - 65536

/-- The per-range sensitivity multiplier selected by the `switch (_range)`
in `getEvent`. -/
def gyroSensitivity : gyroRange_t → ℚ
  | .GYRO_RANGE_250DPS => GYRO_SENSITIVITY_250DPS
  | .GYRO_RANGE_500DPS => GYRO_SENSITIVITY_500DPS
  | .GYRO_RANGE_1000DPS => GYRO_SENSITIVITY_1000DPS
  | .GYRO_RANGE_2000DPS => GYRO_SENSITIVITY_2000DPS

/-- The float axis triple of `sensors_event_t::gyro`. -/
structure sensors_vec_t where
  x : ℚ
  y : ℚ
  z : ℚ
deriving DecidableEq, Repr

/-- The fields of `sensors_event_t` that `getEvent` fills in (version and
type are fixed scalars not modelled). -/
structure sensors_event_t where
  sensor_id : Int
  type : Nat
  timestamp : Nat
  gyro : sensors_vec_t
deriving DecidableEq, Repr

/-- Clearing of the raw data placeholder at the start of `getEvent`
(`raw.x = 0; raw.y = 0; raw.z = 0;`) and in `initialize`. -/
def clearRaw (g : Gyro) : Gyro := { g with raw := ⟨0, 0, 0⟩ }

/-- `Adafruit_FXAS21002C::getEvent`: clear the event and `raw`, read a
7-byte block starting at STATUS (bytes `b0..b6` supplied by the device,
`now` by `millis()`), decode big-endian int16 axis values into the event
and `raw`, scale by the range's sensitivity, convert to rad/s, return
true. -/
def getEvent (g : Gyro) (b0 b1 b2 b3 b4 b5 b6 now : Nat) :
    Bool × sensors_event_t × Gyro × List BusOp :=
  let gc := clearRaw g
  let gx : Int := toInt16 ((b1 <<< 8) ||| b2)
  let gy : Int := toInt16 ((b3 <<< 8) ||| b4)
  let gz : Int := toInt16 ((b5 <<< 8) ||| b6)
  let g2 : Gyro := { gc with raw := ⟨gx, gy, gz⟩ }
  let sens : ℚ := gyroSensitivity g._range
  let ev : sensors_event_t :=
    { sensor_id := g._sensorID
      type := SENSOR_TYPE_GYROSCOPE
      timestamp := now
      gyro :=
        { x := (gx : ℚ) * sens * SENSORS_DPS_TO_RADS
          y := (gy : ℚ) * sens * SENSORS_DPS_TO_RADS
          z := (gz : ℚ) * sens * SENSORS_DPS_TO_RADS } }
  (true, ev, g2, [.readBlock GYRO_REGISTER_STATUS 7])

/-- The fields of `sensor_t` that `getSensor` fills in. -/
structure sensor_t where
  name : String
  version : Nat
  sensor_id : Int
  type : Nat
  min_delay : Nat
  max_value : ℚ
  min_value : ℚ
  resolution : ℚ
deriving DecidableEq, Repr

/-- `Adafruit_FXAS21002C::getSensor`: fill the descriptor; `max_value`
is `(float)_range * SENSORS_DPS_TO_RADS` and `min_value` is
`((float)_range * -1.0) * SENSORS_DPS_TO_RADS`. -/
def getSensor (g : Gyro) : sensor_t :=
  { name := "FXAS21002C"
    version := 1
    sensor_id := g._sensorID
    type := SENSOR_TYPE_GYROSCOPE
    min_delay := 0
    max_value := (rangeDps g._range : ℚ) * SENSORS_DPS_TO_RADS
    min_value := ((rangeDps g._range : ℚ) * (-1)) * SENSORS_DPS_TO_RADS
    resolution := 0 }

/-- Ordinal position of an output rate in the valid list
800, 400, 200, 100, 50, 25, 12.5 Hz (the claimed DR bit pattern),
`none` when the rate is not one of the seven valid constants. -/
def odrOrdinal (odr : ℚ) : Option Nat :=
  if odr = GYRO_ODR_800HZ then some 0
  else if odr = GYRO_ODR_400HZ then some 1
  else if odr = GYRO_ODR_200HZ then some 2
  else if odr = GYRO_ODR_100HZ then some 3
  else if odr = GYRO_ODR_50HZ then some 4
  else if odr = GYRO_ODR_25HZ then some 5
  else if odr = GYRO_ODR_12_5HZ then some 6
  else none

/-- Is this bus operation a write of the range field (CTRL_REG0 bits 1:0)
or the data-rate field (CTRL_REG1 bits 4:2)? -/
def isCfgFieldWrite : BusOp → Bool
  | .writeBits r w s _ =>
      (r = GYRO_REGISTER_CTRL_REG0 && w = 2 && s = 0) ||
      (r = GYRO_REGISTER_CTRL_REG1 && w = 3 && s = 2)
  | _ => false

/-- The value a bus operation writes to the two-bit mode field of
CTRL_REG1, when it is such a write. -/
def modeWriteVal : BusOp → Option Nat
  | .writeBits r w s v =>
      if r = GYRO_REGISTER_CTRL_REG1 && w = 2 && s = 0 then some v else none
  | _ => none

/-- Scan a trace tracking the last value written to the mode field:
every range/rate field write must happen while the last mode write was
0x00 (Standby) and must be followed later by a mode write of 0x03
(Active). -/
def standbyWrapped : Option Nat → List BusOp → Bool
  | _, [] => true
  | m, op :: rest =>
    match modeWriteVal op with
    | some v => standbyWrapped (some v) rest
    | none =>
      if isCfgFieldWrite op then
        (m == some 0) && rest.any (fun o => modeWriteVal o == some 3) &&
          standbyWrapped m rest
      else standbyWrapped m rest

set_option maxRecDepth 100000

/-! ### Helper lemmas on byte-level field writes -/

/-- Writing the two-bit field at offset 0 of a byte makes its low two bits
the written value. -/
theorem bitsWrite_fs_set : ∀ old < 256, ∀ d < 4, bitsWrite old 2 0 d % 256 % 4 = d := by
  decide

/-- Writing the two-bit field at offset 0 of a byte leaves bits 4:2
unchanged. -/
theorem bitsWrite_mode_keeps_dr :
    ∀ old < 256, ∀ d < 4, bitsWrite old 2 0 d % 256 % 256 / 4 % 8 = old / 4 % 8 := by
  decide

/-- Writing the three-bit field at offset 2 of a byte makes bits 4:2 the
written value. -/
theorem bitsWrite_dr_set : ∀ old < 256, ∀ d < 8, bitsWrite old 3 2 d % 256 % 256 / 4 % 8 = d := by
  decide

/-- A CTRL_REG0 FS-field write sets `fsField` to the written value. -/
theorem fsField_writeBitsF_fs (regs : Nat → Nat) (d : Nat) (hd : d < 4) :
    fsField (writeBitsF regs GYRO_REGISTER_CTRL_REG0 2 0 d) = d := by
  simp only [fsField, writeBitsF, writeRegF, regRead, GYRO_REGISTER_CTRL_REG0, if_pos rfl]
  have h := bitsWrite_fs_set (regs 0x0D % 256) (Nat.mod_lt _ (by norm_num)) d hd
  simpa using h

/-- Writes to CTRL_REG1 do not change `fsField` (a CTRL_REG0 field). -/
theorem fsField_writeBitsF_reg1 (regs : Nat → Nat) (w s d : Nat) :
    fsField (writeBitsF regs GYRO_REGISTER_CTRL_REG1 w s d) = fsField regs := by
  simp [fsField, writeBitsF, writeRegF, regRead, GYRO_REGISTER_CTRL_REG0,
    GYRO_REGISTER_CTRL_REG1]

/-- A CTRL_REG1 mode-field write (bits 1:0) does not change `drField`
(bits 4:2). -/
theorem drField_writeBitsF_mode (regs : Nat → Nat) (d : Nat) (hd : d < 4) :
    drField (writeBitsF regs GYRO_REGISTER_CTRL_REG1 2 0 d) = drField regs := by
  simp only [drField, writeBitsF, writeRegF, regRead, GYRO_REGISTER_CTRL_REG1, if_pos rfl]
  have h := bitsWrite_mode_keeps_dr (regs 0x13 % 256) (Nat.mod_lt _ (by norm_num)) d hd
  simpa using h

/-- A CTRL_REG1 DR-field write (bits 4:2) sets `drField` to the written
value. -/
theorem drField_writeBitsF_dr (regs : Nat → Nat) (d : Nat) (hd : d < 8) :
    drField (writeBitsF regs GYRO_REGISTER_CTRL_REG1 3 2 d) = d := by
  simp only [drField, writeBitsF, writeRegF, regRead, GYRO_REGISTER_CTRL_REG1, if_pos rfl]
  have h := bitsWrite_dr_set (regs 0x13 % 256) (Nat.mod_lt _ (by norm_num)) d hd
  simpa using h

/-! ### Helper lemmas on the shape of each operation -/

/-- The register-file effect of `setRange`: mode 00, FS field, mode 11. -/
theorem setRange_regs_shape (g : Gyro) (r : gyroRange_t) :
    (setRange g r).1.regs =
      writeBitsF (writeBitsF (writeBitsF g.regs GYRO_REGISTER_CTRL_REG1 2 0 0)
        GYRO_REGISTER_CTRL_REG0 2 0 (rangeFieldBits r)) GYRO_REGISTER_CTRL_REG1 2 0 3 := rfl

/-- The bus trace of `setRange`. -/
theorem setRange_trace_shape (g : Gyro) (r : gyroRange_t) :
    (setRange g r).2 =
      [.writeBits GYRO_REGISTER_CTRL_REG1 2 0 0, .delayMs 100,
       .writeBits GYRO_REGISTER_CTRL_REG0 2 0 (rangeFieldBits r),
       .writeBits GYRO_REGISTER_CTRL_REG1 2 0 3] := rfl

/-- The register-file effect and bus trace of `setODR`, split on whether
the requested rate is one of the seven valid constants. -/
theorem setODR_split (g : Gyro) (q : ℚ) :
    (setODR g q).1.regs = (match odrOrdinal q with
      | some k => writeBitsF (writeBitsF (writeBitsF g.regs GYRO_REGISTER_CTRL_REG1 2 0 0)
          GYRO_REGISTER_CTRL_REG1 3 2 k) GYRO_REGISTER_CTRL_REG1 2 0 3
      | none => writeBitsF (writeBitsF g.regs GYRO_REGISTER_CTRL_REG1 2 0 0)
          GYRO_REGISTER_CTRL_REG1 2 0 3) ∧
    (setODR g q).2 = [.writeBits GYRO_REGISTER_CTRL_REG1 2 0 0, .delayMs 100] ++
      (match odrOrdinal q with
        | some k => [.writeBits GYRO_REGISTER_CTRL_REG1 3 2 k]
        | none => []) ++ [.writeBits GYRO_REGISTER_CTRL_REG1 2 0 3] := by
  by_cases h1 : q = GYRO_ODR_800HZ
  · subst h1
    refine ⟨?_, ?_⟩ <;> norm_num [setODR, standby, odrOrdinal, GYRO_ODR_800HZ]
  by_cases h2 : q = GYRO_ODR_400HZ
  · subst h2
    refine ⟨?_, ?_⟩ <;>
      norm_num [setODR, standby, odrOrdinal, GYRO_ODR_800HZ, GYRO_ODR_400HZ]
  by_cases h3 : q = GYRO_ODR_200HZ
  · subst h3
    refine ⟨?_, ?_⟩ <;>
      norm_num [setODR, standby, odrOrdinal, GYRO_ODR_800HZ, GYRO_ODR_400HZ, GYRO_ODR_200HZ]
  by_cases h4 : q = GYRO_ODR_100HZ
  · subst h4
    refine ⟨?_, ?_⟩ <;>
      norm_num [setODR, standby, odrOrdinal, GYRO_ODR_800HZ, GYRO_ODR_400HZ, GYRO_ODR_200HZ,
        GYRO_ODR_100HZ]
  by_cases h5 : q = GYRO_ODR_50HZ
  · subst h5
    refine ⟨?_, ?_⟩ <;>
      norm_num [setODR, standby, odrOrdinal, GYRO_ODR_800HZ, GYRO_ODR_400HZ, GYRO_ODR_200HZ,
        GYRO_ODR_100HZ, GYRO_ODR_50HZ]
  by_cases h6 : q = GYRO_ODR_25HZ
  · subst h6
    refine ⟨?_, ?_⟩ <;>
      norm_num [setODR, standby, odrOrdinal, GYRO_ODR_800HZ, GYRO_ODR_400HZ, GYRO_ODR_200HZ,
        GYRO_ODR_100HZ, GYRO_ODR_50HZ, GYRO_ODR_25HZ]
  by_cases h7 : q = GYRO_ODR_12_5HZ
  · subst h7
    refine ⟨?_, ?_⟩ <;>
      norm_num [setODR, standby, odrOrdinal, GYRO_ODR_800HZ, GYRO_ODR_400HZ, GYRO_ODR_200HZ,
        GYRO_ODR_100HZ, GYRO_ODR_50HZ, GYRO_ODR_25HZ, GYRO_ODR_12_5HZ]
  · refine ⟨?_, ?_⟩ <;> simp [setODR, standby, odrOrdinal, h1, h2, h3, h4, h5, h6, h7]

/-- A valid ordinal is at most 6, hence below 8. -/
theorem odrOrdinal_lt_eight (q : ℚ) (k : Nat) (h : odrOrdinal q = some k) : k < 8 := by
  unfold odrOrdinal at h
  split_ifs at h <;> simp_all <;> omega

/-- 7 Hz is not a valid output rate. -/
theorem odrOrdinal_seven : odrOrdinal 7 = none := by
  norm_num [odrOrdinal, GYRO_ODR_800HZ, GYRO_ODR_400HZ, GYRO_ODR_200HZ, GYRO_ODR_100HZ,
    GYRO_ODR_50HZ, GYRO_ODR_25HZ, GYRO_ODR_12_5HZ]

/-- When the requested rate is invalid, `setODR` leaves the DR field of
CTRL_REG1 untouched (only the mode bits are written). -/
theorem setODR_invalid_drField (g : Gyro) (q : ℚ) (h : odrOrdinal q = none) :
    drField (setODR g q).1.regs = drField g.regs := by
  rw [(setODR_split g q).1]
  simp only [h]
  rw [drField_writeBitsF_mode _ 3 (by norm_num), drField_writeBitsF_mode _ 0 (by norm_num)]

/-- The standby-wrap discipline holds for a trace of the shape
mode-00, delay, DR-field write, mode-11. -/
theorem standbyWrapped_cfg_valid (k : Nat) :
    standbyWrapped none
      ([.writeBits GYRO_REGISTER_CTRL_REG1 2 0 0, .delayMs 100] ++
        [.writeBits GYRO_REGISTER_CTRL_REG1 3 2 k] ++
        [.writeBits GYRO_REGISTER_CTRL_REG1 2 0 3]) = true := by
  simp [standbyWrapped, modeWriteVal, isCfgFieldWrite, GYRO_REGISTER_CTRL_REG1,
    GYRO_REGISTER_CTRL_REG0, List.any]

/-- The standby-wrap discipline holds trivially for a trace with no
configuration field write. -/
theorem standbyWrapped_cfg_none :
    standbyWrapped none
      ([.writeBits GYRO_REGISTER_CTRL_REG1 2 0 0, .delayMs 100] ++ ([] : List BusOp) ++
        [.writeBits GYRO_REGISTER_CTRL_REG1 2 0 3]) = true := by decide

/-! ### Claim theorems -/

/-- C1: for every raw sample decoded by `getEvent` and each of the four
ranges, the physical value written to the event equals the raw signed
16-bit integer times the fixed per-range sensitivity constant (0.0078125
for 250 dps, 0.015625 for 500 dps, 0.03125 for 1000 dps, 0.0625 for
2000 dps) times the degrees-to-radians constant. -/
theorem getEvent_scaling_matches_sensitivity_table
    (g : Gyro) (b0 b1 b2 b3 b4 b5 b6 now : Nat) :
    ((getEvent g b0 b1 b2 b3 b4 b5 b6 now).2.1.gyro.x =
      ((getEvent g b0 b1 b2 b3 b4 b5 b6 now).2.2.1.raw.x : ℚ) *
        gyroSensitivity g._range * SENSORS_DPS_TO_RADS) ∧
    ((getEvent g b0 b1 b2 b3 b4 b5 b6 now).2.1.gyro.y =
      ((getEvent g b0 b1 b2 b3 b4 b5 b6 now).2.2.1.raw.y : ℚ) *
        gyroSensitivity g._range * SENSORS_DPS_TO_RADS) ∧
    ((getEvent g b0 b1 b2 b3 b4 b5 b6 now).2.1.gyro.z =
      ((getEvent g b0 b1 b2 b3 b4 b5 b6 now).2.2.1.raw.z : ℚ) *
        gyroSensitivity g._range * SENSORS_DPS_TO_RADS) ∧
    gyroSensitivity .GYRO_RANGE_250DPS = (0.0078125 : ℚ) ∧
    gyroSensitivity .GYRO_RANGE_500DPS = (0.015625 : ℚ) ∧
    gyroSensitivity .GYRO_RANGE_1000DPS = (0.03125 : ℚ) ∧
    gyroSensitivity .GYRO_RANGE_2000DPS = (0.0625 : ℚ) :=
  ⟨rfl, rfl, rfl, rfl, rfl, rfl, rfl⟩

/-- C2: for every range argument, `setRange` programs the two-bit FS field
of CTRL_REG0 with the inverted encoding: 250 dps writes 0b11, 500 dps
writes 0b10, 1000 dps writes 0b01, 2000 dps writes 0b00. -/
theorem setRange_programs_inverted_fs_encoding (g : Gyro) :
    (∀ r, fsField (setRange g r).1.regs = rangeFieldBits r) ∧
    (∀ r, BusOp.writeBits GYRO_REGISTER_CTRL_REG0 2 0 (rangeFieldBits r) ∈ (setRange g r).2) ∧
    rangeFieldBits .GYRO_RANGE_250DPS = 0b11 ∧
    rangeFieldBits .GYRO_RANGE_500DPS = 0b10 ∧
    rangeFieldBits .GYRO_RANGE_1000DPS = 0b01 ∧
    rangeFieldBits .GYRO_RANGE_2000DPS = 0b00 := by
  refine ⟨?_, ?_, rfl, rfl, rfl, rfl⟩
  · intro r
    rw [setRange_regs_shape, fsField_writeBitsF_reg1,
      fsField_writeBitsF_fs _ _ (by cases r <;> decide)]
  · intro r
    rw [setRange_trace_shape]
    simp

/-- C3: a `begin` run whose WHO_AM_I read does not equal `FXAS21002C_ID`
returns false and leaves the whole driver state (range, output rate, raw
sample, registers) untouched; range and output rate are only assigned
when the identity check succeeds. -/
theorem begin_identity_mismatch_leaves_state (g : Gyro) (who : Nat)
    (h : who ≠ FXAS21002C_ID) :
    beginDrv g true who = (false, g, [.readReg GYRO_REGISTER_WHO_AM_I]) ∧
    (beginDrv g true FXAS21002C_ID).2.1._range = .GYRO_RANGE_250DPS ∧
    (beginDrv g true FXAS21002C_ID).2.1._ODR = GYRO_ODR_100HZ := by
  refine ⟨?_, ?_, ?_⟩
  · simp [beginDrv, h]
  · simp [beginDrv, initDevice]
  · simp [beginDrv, initDevice]

/-- C3 witness: `begin` with identity byte 0 on a concrete driver state. -/
theorem begin_identity_mismatch_witness :
    beginDrv ⟨.GYRO_RANGE_500DPS, 200, 1, ⟨1, 2, 3⟩, fun _ => 0⟩ true 0 =
      (false, ⟨.GYRO_RANGE_500DPS, 200, 1, ⟨1, 2, 3⟩, fun _ => 0⟩,
       [.readReg GYRO_REGISTER_WHO_AM_I]) ∧
    (beginDrv ⟨.GYRO_RANGE_500DPS, 200, 1, ⟨1, 2, 3⟩, fun _ => 0⟩ true
      FXAS21002C_ID).2.1._range = .GYRO_RANGE_250DPS :=
  have h := begin_identity_mismatch_leaves_state
    ⟨.GYRO_RANGE_500DPS, 200, 1, ⟨1, 2, 3⟩, fun _ => 0⟩ 0 (by decide)
  ⟨h.1, h.2.1⟩

/-- C4: `setODR` writes the three-bit DR field of CTRL_REG1 (bit pattern
equal to the rate's ordinal position in 800, 400, 200, 100, 50, 25,
12.5 Hz) exactly when the rate equals one of those constants, skipping
the hardware write otherwise; the stored `_ODR` is set to the requested
value in both cases, so `getODR` afterwards returns it even when
invalid. -/
theorem setODR_gated_write_unconditional_state (g : Gyro) (q : ℚ) :
    (setODR g q).1._ODR = q ∧
    (getODR (setODR g q).1).1 = q ∧
    (∀ k, odrOrdinal q = some k →
      drField (setODR g q).1.regs = k ∧
      BusOp.writeBits GYRO_REGISTER_CTRL_REG1 3 2 k ∈ (setODR g q).2) ∧
    (odrOrdinal q = none →
      drField (setODR g q).1.regs = drField g.regs ∧
      ∀ op ∈ (setODR g q).2, isCfgFieldWrite op = false) := by
  obtain ⟨hr, ht⟩ := setODR_split g q
  refine ⟨rfl, rfl, ?_, ?_⟩
  · intro k hk
    constructor
    · rw [hr]
      simp only [hk]
      rw [drField_writeBitsF_mode _ 3 (by norm_num),
        drField_writeBitsF_dr _ k (odrOrdinal_lt_eight q k hk)]
    · rw [ht]
      simp [hk]
  · intro hk
    refine ⟨setODR_invalid_drField g q hk, ?_⟩
    rw [ht]
    simp only [hk]
    decide

/-- C4 witness: a valid rate (400 Hz, ordinal 1) and an invalid rate
(7 Hz) on a concrete driver state. -/
theorem setODR_gated_write_witness :
    ((setODR ⟨.GYRO_RANGE_250DPS, 100, 0, ⟨0, 0, 0⟩, fun _ => 0⟩ 400).1._ODR = 400 ∧
      drField (setODR ⟨.GYRO_RANGE_250DPS, 100, 0, ⟨0, 0, 0⟩, fun _ => 0⟩ 400).1.regs = 1) ∧
    ((setODR ⟨.GYRO_RANGE_250DPS, 100, 0, ⟨0, 0, 0⟩, fun _ => 0⟩ 7).1._ODR = 7 ∧
      drField (setODR ⟨.GYRO_RANGE_250DPS, 100, 0, ⟨0, 0, 0⟩, fun _ => 0⟩ 7).1.regs =
        drField (fun _ => 0)) :=
  have h1 := setODR_gated_write_unconditional_state
    ⟨.GYRO_RANGE_250DPS, 100, 0, ⟨0, 0, 0⟩, fun _ => 0⟩ 400
  have h2 := setODR_gated_write_unconditional_state
    ⟨.GYRO_RANGE_250DPS, 100, 0, ⟨0, 0, 0⟩, fun _ => 0⟩ 7
  ⟨⟨h1.1, (h1.2.2.1 1 (by norm_num [odrOrdinal, GYRO_ODR_800HZ, GYRO_ODR_400HZ])).1⟩,
   ⟨h2.1, (h2.2.2.2 odrOrdinal_seven).1⟩⟩

/-- C5: in `setRange` and `setODR`, every write of the range field or the
data-rate field is preceded (with no intervening mode write) by a mode
write of 00 (Standby) and followed by a mode write of 11 (Active); no
field write happens while the operation has the device Active. -/
theorem config_field_writes_standby_wrapped (g : Gyro) (r : gyroRange_t) (q : ℚ) :
    standbyWrapped none (setRange g r).2 = true ∧
    standbyWrapped none (setODR g q).2 = true := by
  constructor
  · rw [setRange_trace_shape]
    cases r <;> decide
  · rw [(setODR_split g q).2]
    rcases hk : odrOrdinal q with _ | k
    · simp only [hk]
      exact standbyWrapped_cfg_none
    · simp only [hk]
      exact standbyWrapped_cfg_valid k

/-- C6: during successful initialization the register writes occur in
exactly this order: 0x00 (Standby) to CTRL_REG1, then the reset bit
(bit 6, i.e. 1<<6 = 2^6) to CTRL_REG1, then the full-scale-range field
to CTRL_REG0, then 0x0E (Active: bit 1 set) to CTRL_REG1, followed by a
100 ms settle delay as the last action before returning true. -/
theorem initDevice_register_write_order (g : Gyro) :
    (initDevice g).2.2 =
      [.writeReg GYRO_REGISTER_CTRL_REG1 0x00,
       .writeReg GYRO_REGISTER_CTRL_REG1 (1 <<< 6),
       .writeReg GYRO_REGISTER_CTRL_REG0 0x03,
       .writeReg GYRO_REGISTER_CTRL_REG1 0x0E,
       .delayMs 100] ∧
    (1 <<< 6 : Nat) = 2 ^ 6 ∧
    (0x0E : Nat) / 2 % 2 = 1 ∧
    (initDevice g).2.2.getLast? = some (.delayMs 100) ∧
    100 ≥ 100 ∧
    (initDevice g).1 = true :=
  ⟨rfl, rfl, rfl, rfl, le_refl 100, rfl⟩

/-- C7: for every prior driver state (hence after any sequence of
operations), `setRange r` followed by `getRange` returns `r`. -/
theorem setRange_getRange_roundtrip (g : Gyro) (r : gyroRange_t) :
    (getRange (setRange g r).1).1 = r := rfl

/-- C8: `getEvent` first clears the raw sample to zero (so its result
does not depend on the previous raw sample) and then overwrites it with
the decoded signed 16-bit unscaled register values; initialization
clears it to zero. -/
theorem getEvent_raw_clear_then_decode (g : Gyro) (b0 b1 b2 b3 b4 b5 b6 now : Nat) :
    (clearRaw g).raw = ⟨0, 0, 0⟩ ∧
    getEvent g b0 b1 b2 b3 b4 b5 b6 now = getEvent (clearRaw g) b0 b1 b2 b3 b4 b5 b6 now ∧
    (getEvent g b0 b1 b2 b3 b4 b5 b6 now).2.2.1.raw =
      ⟨toInt16 ((b1 <<< 8) ||| b2), toInt16 ((b3 <<< 8) ||| b4), toInt16 ((b5 <<< 8) ||| b6)⟩ ∧
    (initDevice g).2.1.raw = ⟨0, 0, 0⟩ :=
  ⟨rfl, rfl, rfl, rfl⟩

/-- C9: the descriptor produced by `getSensor` has `max_value` equal to
the configured range in degrees/second times the degrees-to-radians
constant, and `min_value` equal to its negation. -/
theorem getSensor_minmax_range_rads (g : Gyro) :
    (getSensor g).max_value = (rangeDps g._range : ℚ) * SENSORS_DPS_TO_RADS ∧
    (getSensor g).min_value = -((rangeDps g._range : ℚ) * SENSORS_DPS_TO_RADS) := by
  refine ⟨rfl, ?_⟩
  simp only [getSensor]
  ring

/-- C10: `getRange` and `getODR` are pure accessors: they return the
stored configuration field, issue no bus operation, and return the
driver state unchanged; consequently after `setODR` with the invalid
rate 7 Hz, `getODR` reports 7 although the hardware DR field was never
written. -/
theorem getRange_getODR_pure_accessors (g : Gyro) :
    getRange g = (g._range, g, []) ∧
    getODR g = (g._ODR, g, []) ∧
    (getODR (setODR g 7).1).1 = 7 ∧
    drField (setODR g 7).1.regs = drField g.regs :=
  ⟨rfl, rfl, rfl, setODR_invalid_drField g 7 odrOrdinal_seven⟩
